import Mathlib

/-!
Verification of the Reputator validation module
(`src/satellite/src/validation/mod.rs`).

The module under `src/` is a declaration/re-export shell: it exports the five
validators `validate_description`, `validate_display_name`, `validate_handle`,
`validate_tag_date_struct` and `validate_timestamp_component`, whose bodies
live in sibling files that are not part of the provided sources.  Every
validator below is therefore modelled from the specification's contracts
(purpose, component design, error taxonomy and testable properties), with the
exact numeric bounds and character sets — which the specification explicitly
leaves open — taken as explicit rule parameters.
-/

namespace Reputator.Validation

/-- Modelled from the spec: the error taxonomy of section 7 for the unseen
validator implementations — `InvalidFormat` (character set / length
violations), `InvalidRange` (numeric/date bounds, called `OutOfRange` in
section 4.5), `DecodeError` (malformed encoded input). -/
inductive ErrorKind where
  | InvalidFormat
  | InvalidRange
  | DecodeError
deriving DecidableEq

/-- Modelled from the spec: the specific violated rule named by a failure
value, gathered from the rule names the contracts of sections 4.1-4.5 list
(too short, too long, illegal character, reserved word, control character,
disallowed content, calendrical bounds, epoch/skew bounds, decode failure). -/
inductive ErrorRule where
  | tooShort
  | tooLong
  | illegalCharacter
  | reservedWord
  | controlCharacter
  | disallowedContent
  | monthOutOfRange
  | dayOutOfRange
  | beforeEpoch
  | tooFarInFuture
  | malformedEncoding
deriving DecidableEq

/-- Modelled from the spec: a structured failure value identifying the
violated rule, returned (never thrown) by every validator. -/
structure ValidationError where
  kind : ErrorKind
  rule : ErrorRule
deriving DecidableEq

/-- Modelled from the spec: the handle rules of section 4.1 — a
minimum/maximum length bound, an allowed character set, and reserved words —
whose exact constants section 9 says live in the unseen sibling files, so
they are carried as parameters. -/
structure HandleRules where
  minLen : Nat
  maxLen : Nat
  allowedChar : Char → Bool
  reserved : List String

/-- Modelled from the spec: `validate_handle` (section 4.1) — success if the
string matches the handle rules, else an `InvalidFormat` failure naming the
specific violated rule (too short, too long, illegal character, reserved
word). -/
def validate_handle (r : HandleRules) (s : String) : Except ValidationError Unit :=
  if s.length < r.minLen then
    .error ⟨.InvalidFormat, .tooShort⟩
  else if r.maxLen < s.length then
    .error ⟨.InvalidFormat, .tooLong⟩
  else if s.data.all r.allowedChar = false then
    .error ⟨.InvalidFormat, .illegalCharacter⟩
  else if r.reserved.contains s then
    .error ⟨.InvalidFormat, .reservedWord⟩
  else
    .ok ()

/-- Modelled from the spec: the print-ability character-class rule of
section 4.2 — a control character in the C0 or C1 range (or DEL). -/
def isControlChar (c : Char) : Bool :=
  c.toNat < 32 || (127 ≤ c.toNat && c.toNat ≤ 159)

/-- Modelled from the spec: the looser length bound of the display-name
contract of section 4.2, whose exact constant is in the unseen sibling
files. -/
structure DisplayNameRules where
  maxLen : Nat

/-- Modelled from the spec: `validate_display_name` (section 4.2) — success
if the string satisfies a looser length bound and a print-ability rule (no
control characters); otherwise an `InvalidFormat` failure naming the
violation. -/
def validate_display_name (r : DisplayNameRules) (s : String) : Except ValidationError Unit :=
  if s.data.any isControlChar then
    .error ⟨.InvalidFormat, .controlCharacter⟩
  else if r.maxLen < s.length then
    .error ⟨.InvalidFormat, .tooLong⟩
  else
    .ok ()

/-- Modelled from the spec: the description rules of section 4.3 — a maximum
length and a class of disallowed control content — whose exact constants are
in the unseen sibling files. -/
structure DescriptionRules where
  maxLen : Nat
  disallowedChar : Char → Bool

/-- Modelled from the spec: `validate_description` (section 4.3) — success if
the string is within a maximum length and contains no disallowed control
sequences; otherwise an `InvalidFormat` failure naming the violation (too
long, disallowed content). -/
def validate_description (r : DescriptionRules) (s : String) : Except ValidationError Unit :=
  if r.maxLen < s.length then
    .error ⟨.InvalidFormat, .tooLong⟩
  else if s.data.any r.disallowedChar then
    .error ⟨.InvalidFormat, .disallowedContent⟩
  else
    .ok ()

/-- Modelled from the spec: the structured tag-date value of section 3 — a
calendar period with year, month and day components. -/
structure TagDate where
  year : Nat
  month : Nat
  day : Nat
deriving DecidableEq

/-- Gregorian leap-year rule, used for the day-of-month bound. -/
def isLeapYear (y : Nat) : Bool :=
  (y % 4 = 0 && y % 100 ≠ 0) || y % 400 = 0

/-- Number of days of a month (1-12) in a given year. -/
def daysInMonth (y m : Nat) : Nat :=
  if m = 2 then (if isLeapYear y then 29 else 28)
  else if m = 4 || m = 6 || m = 9 || m = 11 then 30
  else 31

/-- Modelled from the spec: `validate_tag_date_struct` (section 4.4) —
success if each component is within its calendrical bounds (month 1-12, day
valid for month/year) and the combination is internally consistent;
otherwise an `InvalidRange` failure naming which component is invalid. -/
def validate_tag_date_struct (d : TagDate) : Except ValidationError Unit :=
  if d.month < 1 ∨ 12 < d.month then
    .error ⟨.InvalidRange, .monthOutOfRange⟩
  else if d.day < 1 ∨ daysInMonth d.year d.month < d.day then
    .error ⟨.InvalidRange, .dayOutOfRange⟩
  else
    .ok ()

/-- Crockford base32 alphabet used by ULID-style timestamp segments. -/
def crockfordAlphabet : List Char :=
  "0123456789ABCDEFGHJKMNPQRSTVWXYZ".data

/-- Value of one Crockford base32 digit, `none` on a character outside the
alphabet. -/
def crockfordValue (c : Char) : Option Nat :=
  crockfordAlphabet.findIdx? (fun d => d = c)

/-- Modelled from the spec: decoding of a ULID-style timestamp segment
(section 4.5 and glossary) — ten Crockford base32 digits read as a big-endian
number of milliseconds; `none` on a wrong length or a character outside the
alphabet. -/
def decodeTimestamp (s : String) : Option Nat :=
  if s.length = 10 then
    s.data.foldl (fun acc c => acc.bind fun a => (crockfordValue c).map fun v => a * 32 + v)
      (some 0)
  else
    none

/-- Modelled from the spec: the acceptable time range of section 4.5 — the
defined epoch, the current time, and the allowed skew around it — whose
exact constants are in the unseen sibling files. -/
structure TimestampRules where
  epoch : Nat
  now : Nat
  allowedSkew : Nat

/-- Modelled from the spec: `validate_timestamp_component` (section 4.5) —
success if the encoded segment decodes to a value within the acceptable time
range (not before the defined epoch, not absurdly far in the future);
otherwise an `InvalidRange` (`OutOfRange`) or `DecodeError` failure naming
the cause. -/
def validate_timestamp_component (r : TimestampRules) (s : String) :
    Except ValidationError Unit :=
  match decodeTimestamp s with
  | none => .error ⟨.DecodeError, .malformedEncoding⟩
  | some t =>
    if t < r.epoch then
      .error ⟨.InvalidRange, .beforeEpoch⟩
    else if r.now + r.allowedSkew < t then
      .error ⟨.InvalidRange, .tooFarInFuture⟩
    else
      .ok ()

/-- Sample handle rules used by concrete witnesses: length 3-20, alphanumeric
plus underscore and hyphen, no reserved words. -/
def sampleHandleRules : HandleRules :=
  ⟨3, 20, fun c => c.isAlphanum || c = '_' || c = '-', []⟩

/-- Sample handle rules with a reserved word that itself satisfies the length
and character-set rules. -/
def sampleReservedHandleRules : HandleRules :=
  ⟨3, 20, fun c => c.isAlphanum || c = '_' || c = '-', ["admin"]⟩

/-- Sample display-name rules used by concrete witnesses. -/
def sampleDisplayNameRules : DisplayNameRules :=
  ⟨50⟩

/-- Sample description rules used by concrete witnesses. -/
def sampleDescriptionRules : DescriptionRules :=
  ⟨10, isControlChar⟩

/-- Sample timestamp rules used by concrete witnesses. -/
def sampleTimestampRules : TimestampRules :=
  ⟨0, 1, 1⟩

/-- Any validator result over `Unit` is either the success marker or some
structured error value. -/
theorem exceptUnit_cases {ε : Type} (x : Except ε Unit) :
    x = Except.ok () ∨ ∃ e, x = Except.error e := by
  cases x with
  | ok v => exact Or.inl (by cases v; rfl)
  | error e => exact Or.inr ⟨e, rfl⟩

/-- Every error value `validate_handle` returns has kind `InvalidFormat`. -/
theorem validate_handle_kind (r : HandleRules) (s : String) (e : ValidationError)
    (h : validate_handle r s = Except.error e) : e.kind = ErrorKind.InvalidFormat := by
  unfold validate_handle at h
  split_ifs at h <;> injection h with h1 <;> subst h1 <;> rfl

/-- Every error value `validate_display_name` returns has kind
`InvalidFormat`. -/
theorem validate_display_name_kind (r : DisplayNameRules) (s : String) (e : ValidationError)
    (h : validate_display_name r s = Except.error e) : e.kind = ErrorKind.InvalidFormat := by
  unfold validate_display_name at h
  split_ifs at h <;> injection h with h1 <;> subst h1 <;> rfl

/-- Every error value `validate_description` returns has kind
`InvalidFormat`. -/
theorem validate_description_kind (r : DescriptionRules) (s : String) (e : ValidationError)
    (h : validate_description r s = Except.error e) : e.kind = ErrorKind.InvalidFormat := by
  unfold validate_description at h
  split_ifs at h <;> injection h with h1 <;> subst h1 <;> rfl

/-- Every error value `validate_tag_date_struct` returns has kind
`InvalidRange`. -/
theorem validate_tag_date_struct_kind (d : TagDate) (e : ValidationError)
    (h : validate_tag_date_struct d = Except.error e) : e.kind = ErrorKind.InvalidRange := by
  unfold validate_tag_date_struct at h
  split_ifs at h <;> injection h with h1 <;> subst h1 <;> rfl

/-- Every error value `validate_timestamp_component` returns has kind
`InvalidRange` or `DecodeError`. -/
theorem validate_timestamp_component_kind (r : TimestampRules) (s : String)
    (e : ValidationError) (h : validate_timestamp_component r s = Except.error e) :
    e.kind = ErrorKind.InvalidRange ∨ e.kind = ErrorKind.DecodeError := by
  unfold validate_timestamp_component at h
  split at h
  · injection h with h1; subst h1; exact Or.inr rfl
  · split_ifs at h <;> injection h with h1 <;> subst h1 <;> exact Or.inl rfl

/-- On an input that decodes, `validate_timestamp_component` is the range
check on the decoded value. -/
theorem validate_timestamp_component_eq (r : TimestampRules) (s : String) (t : Nat)
    (hdec : decodeTimestamp s = some t) :
    validate_timestamp_component r s =
      (if t < r.epoch then Except.error ⟨.InvalidRange, .beforeEpoch⟩
       else if r.now + r.allowedSkew < t then Except.error ⟨.InvalidRange, .tooFarInFuture⟩
       else Except.ok ()) := by
  unfold validate_timestamp_component
  rw [hdec]

/-- C1: every one of the five exported validators (validate_handle,
validate_display_name, validate_description, validate_tag_date_struct,
validate_timestamp_component) is a total function over its input domain: for
every input it returns a definitive accept-or-reject outcome — the success
marker or a structured error value — and, being a total Lean function, it
cannot fail in any other way. -/
theorem validators_total_spec (hr : HandleRules) (dr : DisplayNameRules)
    (cr : DescriptionRules) (tr : TimestampRules)
    (s1 s2 s3 s4 : String) (d : TagDate) :
    (validate_handle hr s1 = Except.ok () ∨ ∃ e, validate_handle hr s1 = Except.error e) ∧
    (validate_display_name dr s2 = Except.ok () ∨
      ∃ e, validate_display_name dr s2 = Except.error e) ∧
    (validate_description cr s3 = Except.ok () ∨
      ∃ e, validate_description cr s3 = Except.error e) ∧
    (validate_tag_date_struct d = Except.ok () ∨
      ∃ e, validate_tag_date_struct d = Except.error e) ∧
    (validate_timestamp_component tr s4 = Except.ok () ∨
      ∃ e, validate_timestamp_component tr s4 = Except.error e) :=
  ⟨exceptUnit_cases _, exceptUnit_cases _, exceptUnit_cases _,
   exceptUnit_cases _, exceptUnit_cases _⟩

/-- C2: every validator reports failure only as a returned structured value
whose kind fits the taxonomy — InvalidFormat for the three string validators
(character-set or length violations), InvalidRange for the tag-date
validator (date bounds), and InvalidRange or DecodeError for the timestamp
validator; the error is the returned value itself, never an exception. -/
theorem validators_error_kinds (hr : HandleRules) (dr : DisplayNameRules)
    (cr : DescriptionRules) (tr : TimestampRules)
    (s1 s2 s3 s4 : String) (d : TagDate) (e : ValidationError) :
    (validate_handle hr s1 = Except.error e → e.kind = ErrorKind.InvalidFormat) ∧
    (validate_display_name dr s2 = Except.error e → e.kind = ErrorKind.InvalidFormat) ∧
    (validate_description cr s3 = Except.error e → e.kind = ErrorKind.InvalidFormat) ∧
    (validate_tag_date_struct d = Except.error e → e.kind = ErrorKind.InvalidRange) ∧
    (validate_timestamp_component tr s4 = Except.error e →
      e.kind = ErrorKind.InvalidRange ∨ e.kind = ErrorKind.DecodeError) :=
  ⟨validate_handle_kind hr s1 e, validate_display_name_kind dr s2 e,
   validate_description_kind cr s3 e, validate_tag_date_struct_kind d e,
   validate_timestamp_component_kind tr s4 e⟩

/-- C2 witness: at the concrete sample rules and the too-short handle "ab",
the returned error value has kind InvalidFormat. -/
theorem validators_error_kinds_witness :
    validate_handle sampleHandleRules "ab" =
      Except.error ⟨ErrorKind.InvalidFormat, ErrorRule.tooShort⟩ ∧
    (⟨ErrorKind.InvalidFormat, ErrorRule.tooShort⟩ : ValidationError).kind =
      ErrorKind.InvalidFormat :=
  ⟨rfl,
   (validators_error_kinds sampleHandleRules sampleDisplayNameRules sampleDescriptionRules
      sampleTimestampRules "ab" "x" "x" "0000000000" ⟨2024, 1, 1⟩
      ⟨ErrorKind.InvalidFormat, ErrorRule.tooShort⟩).1 rfl⟩

/-- C3: every validator is deterministic and referentially transparent: each
is a function of its declared input alone (the Lean model carries no state
parameter at all), so two invocations on the same input are the same term
and return the same result. -/
theorem validators_deterministic (hr : HandleRules) (dr : DisplayNameRules)
    (cr : DescriptionRules) (tr : TimestampRules)
    (s1 s2 s3 s4 : String) (d : TagDate) :
    validate_handle hr s1 = validate_handle hr s1 ∧
    validate_display_name dr s2 = validate_display_name dr s2 ∧
    validate_description cr s3 = validate_description cr s3 ∧
    validate_tag_date_struct d = validate_tag_date_struct d ∧
    validate_timestamp_component tr s4 = validate_timestamp_component tr s4 :=
  ⟨rfl, rfl, rfl, rfl, rfl⟩

/-- C4: for every string shorter than the minimum handle length,
validate_handle rejects it with an InvalidFormat error naming the "too
short" rule. -/
theorem handle_too_short_rejected (r : HandleRules) (s : String)
    (h : s.length < r.minLen) :
    validate_handle r s = Except.error ⟨ErrorKind.InvalidFormat, ErrorRule.tooShort⟩ := by
  unfold validate_handle
  rw [if_pos h]

/-- C4 witness: "ab" is shorter than the sample minimum length 3 and is
rejected as too short. -/
theorem handle_too_short_rejected_witness :
    String.length "ab" < sampleHandleRules.minLen ∧
    validate_handle sampleHandleRules "ab" =
      Except.error ⟨ErrorKind.InvalidFormat, ErrorRule.tooShort⟩ :=
  ⟨by decide, handle_too_short_rejected sampleHandleRules "ab" (by decide)⟩

/-- C5 counterexample: under handle rules whose reserved-word list contains
"admin" — a word within the length bounds and made only of allowed
characters, as section 4.1 permits — validate_handle rejects "admin" with a
reserved-word error instead of returning success. -/
theorem handle_reserved_counterexample :
    sampleReservedHandleRules.minLen ≤ String.length "admin" ∧
    String.length "admin" ≤ sampleReservedHandleRules.maxLen ∧
    "admin".data.all sampleReservedHandleRules.allowedChar = true ∧
    validate_handle sampleReservedHandleRules "admin" =
      Except.error ⟨ErrorKind.InvalidFormat, ErrorRule.reservedWord⟩ ∧
    validate_handle sampleReservedHandleRules "admin" ≠ Except.ok () :=
  ⟨by decide, by decide, rfl, rfl, by intro h; exact Except.noConfusion h⟩

/-- C5 amended: for every string whose length is within the handle's
minimum/maximum length bounds, that consists only of characters in the
handle's allowed character set, and that is not one of the reserved handle
words, validate_handle returns success. -/
theorem handle_in_bounds_allowed_accepted (r : HandleRules) (s : String)
    (h1 : r.minLen ≤ s.length) (h2 : s.length ≤ r.maxLen)
    (h3 : s.data.all r.allowedChar = true) (h4 : r.reserved.contains s = false) :
    validate_handle r s = Except.ok () := by
  unfold validate_handle
  rw [if_neg (by omega), if_neg (by omega), if_neg (by simp [h3]),
    if_neg (by rw [h4]; exact Bool.false_ne_true)]

/-- C5 amended witness: "alice" is within the sample bounds, uses only
allowed characters, is not reserved, and is accepted. -/
theorem handle_in_bounds_allowed_accepted_witness :
    validate_handle sampleHandleRules "alice" = Except.ok () :=
  handle_in_bounds_allowed_accepted sampleHandleRules "alice" (by decide) (by decide) rfl rfl

/-- C6: the day component is checked against the actual length of the month,
leap years included: every tag-date whose month is 1-12 and whose day is
between 1 and the number of days of that month in that year is accepted;
in particular 2024-02-29 (a leap day) is accepted and 2023-02-29 is
rejected. -/
theorem tag_date_day_month_checked :
    (∀ d : TagDate, 1 ≤ d.month → d.month ≤ 12 → 1 ≤ d.day →
      d.day ≤ daysInMonth d.year d.month → validate_tag_date_struct d = Except.ok ()) ∧
    validate_tag_date_struct ⟨2024, 2, 29⟩ = Except.ok () ∧
    validate_tag_date_struct ⟨2023, 2, 29⟩ =
      Except.error ⟨ErrorKind.InvalidRange, ErrorRule.dayOutOfRange⟩ := by
  refine ⟨?_, rfl, rfl⟩
  intro d h1 h2 h3 h4
  unfold validate_tag_date_struct
  rw [if_neg (by omega), if_neg (by omega)]

/-- C6 witness: 2021-04-30 satisfies the calendrical bounds and is
accepted. -/
theorem tag_date_day_month_checked_witness :
    validate_tag_date_struct ⟨2021, 4, 30⟩ = Except.ok () :=
  tag_date_day_month_checked.1 ⟨2021, 4, 30⟩ (by decide) (by decide) (by decide) (by decide)

/-- C7: every tag-date whose month component equals 13 is rejected by
validate_tag_date_struct with an InvalidRange error identifying the month
component. -/
theorem tag_date_month13_rejected (d : TagDate) (h : d.month = 13) :
    validate_tag_date_struct d =
      Except.error ⟨ErrorKind.InvalidRange, ErrorRule.monthOutOfRange⟩ := by
  unfold validate_tag_date_struct
  rw [if_pos (by omega)]

/-- C7 witness: 2023-13-01 is rejected with a month-out-of-range error. -/
theorem tag_date_month13_rejected_witness :
    validate_tag_date_struct ⟨2023, 13, 1⟩ =
      Except.error ⟨ErrorKind.InvalidRange, ErrorRule.monthOutOfRange⟩ :=
  tag_date_month13_rejected ⟨2023, 13, 1⟩ rfl

/-- C8: for every timestamp component that decodes to a time before the
defined epoch, validate_timestamp_component rejects it with an out-of-range
(InvalidRange, the spec's OutOfRange) error; for every component decoding to
a time within the allowed skew around the current time (the epoch lying at
least one skew before now), it accepts. -/
theorem timestamp_epoch_and_skew (r : TimestampRules) (s : String) (t : Nat)
    (hdec : decodeTimestamp s = some t) :
    (t < r.epoch →
      validate_timestamp_component r s =
        Except.error ⟨ErrorKind.InvalidRange, ErrorRule.beforeEpoch⟩) ∧
    (r.epoch + r.allowedSkew ≤ r.now → r.now ≤ t + r.allowedSkew →
      t ≤ r.now + r.allowedSkew → validate_timestamp_component r s = Except.ok ()) := by
  rw [validate_timestamp_component_eq r s t hdec]
  constructor
  · intro h
    rw [if_pos h]
  · intro h1 h2 h3
    rw [if_neg (by omega), if_neg (by omega)]

/-- C8 witness: "0000000001" decodes to 1, which lies within the sample skew
around now, and is accepted; under rules with epoch 5, "0000000000" decodes
to 0, before the epoch, and is rejected. -/
theorem timestamp_epoch_and_skew_witness :
    decodeTimestamp "0000000001" = some 1 ∧
    validate_timestamp_component sampleTimestampRules "0000000001" = Except.ok () ∧
    decodeTimestamp "0000000000" = some 0 ∧
    validate_timestamp_component ⟨5, 10, 1⟩ "0000000000" =
      Except.error ⟨ErrorKind.InvalidRange, ErrorRule.beforeEpoch⟩ :=
  ⟨rfl,
   (timestamp_epoch_and_skew sampleTimestampRules "0000000001" 1 rfl).2
     (by decide) (by decide) (by decide),
   rfl,
   (timestamp_epoch_and_skew ⟨5, 10, 1⟩ "0000000000" 0 rfl).1 (by decide)⟩

/-- C9: every display-name string containing at least one control character
is rejected by validate_display_name with an InvalidFormat error naming the
control-character violation. -/
theorem display_name_control_rejected (r : DisplayNameRules) (s : String)
    (h : s.data.any isControlChar = true) :
    validate_display_name r s =
      Except.error ⟨ErrorKind.InvalidFormat, ErrorRule.controlCharacter⟩ := by
  unfold validate_display_name
  rw [if_pos h]

/-- C9 witness: a display name containing a newline is rejected with a
control-character error. -/
theorem display_name_control_rejected_witness :
    ("a\nb".data.any isControlChar = true) ∧
    validate_display_name sampleDisplayNameRules "a\nb" =
      Except.error ⟨ErrorKind.InvalidFormat, ErrorRule.controlCharacter⟩ :=
  ⟨rfl, display_name_control_rejected sampleDisplayNameRules "a\nb" rfl⟩

/-- C10: every description string whose length exceeds the maximum
description length is rejected by validate_description with an
InvalidFormat error naming the "too long" rule. -/
theorem description_too_long_rejected (r : DescriptionRules) (s : String)
    (h : r.maxLen < s.length) :
    validate_description r s =
      Except.error ⟨ErrorKind.InvalidFormat, ErrorRule.tooLong⟩ := by
  unfold validate_description
  rw [if_pos h]

/-- C10 witness: a 12-character description exceeds the sample maximum of 10
and is rejected as too long. -/
theorem description_too_long_rejected_witness :
    sampleDescriptionRules.maxLen < String.length "aaaaaaaaaaaa" ∧
    validate_description sampleDescriptionRules "aaaaaaaaaaaa" =
      Except.error ⟨ErrorKind.InvalidFormat, ErrorRule.tooLong⟩ :=
  ⟨by decide, description_too_long_rejected sampleDescriptionRules "aaaaaaaaaaaa" (by decide)⟩

end Reputator.Validation
